import Mathlib

/-!
Verification of the heuristic comment/content analysis core of the
`charizard` YouTube-analytics repository.

The Python sources are shallowly embedded below:

* `src/src/services/youtube_service.py` — `classify_sentiment`,
  `detect_sarcasm`, `is_question`, `categorize_comment`, `is_english`,
  `get_video_analytics` (engagement metrics and comment histograms),
  `detect_sponsorships`.
* `src/src/app.py` — `YouTubeCommentAnalyzer.detect_sarcasm` (the second,
  older sarcasm implementation; its `classify_sentiment` / `is_english`
  are textually identical to the service versions).
* `src/analytics_api.py` — `get_detailed_video_info` (engagement rate) and
  `categorize_comments` (the ten-label comment categorizer).

Modelling conventions:

* Python strings are Lean `String`s (lists of unicode code points).
  `str.lower()` is modelled by per-character `Char.toLower` (exact on the
  ASCII keywords the code matches against); `\w`, `\s` and `str.strip()`
  are modelled on their ASCII meaning.
* The VADER compound polarity score and the `langid` detector output are
  external-library values; they enter the embedding as explicit
  parameters, exactly as the claims direct.
* Python machine floats appear only as ratios of integer counts; they are
  embedded as exact rationals `ℚ`.
* `isinstance(x, str)` guards are modelled by the `PyInput` sum type.
* Regular-expression matching in `detect_sponsorships` is embedded by a
  small token matcher (`Tok`, `matchToks`) covering exactly the regex
  constructs those patterns use (case-insensitive literals, `\s+`, `.*?`,
  character classes, alternation, `$`), plus dedicated scanners for the
  two `findall` calls whose captured text is used (discount codes, URLs).
-/

namespace Charizard

/-- Substring containment on lists of characters: Python's `p in t`. -/
def listContainsSub (p : List Char) : List Char → Bool
  | [] => p.isEmpty
  | c :: cs => p.isPrefixOf (c :: cs) || listContainsSub p cs

/-- Python's `p in t` for strings. -/
def strContainsSub (p t : String) : Bool :=
  listContainsSub p.data t.data

/-- Python `str.lower()` (per-character; exact on ASCII). -/
def lowerS (s : String) : String :=
  ⟨s.data.map Char.toLower⟩

/-- Python `text.strip() == ''`: every character is whitespace. -/
def stripBlank (s : String) : Bool :=
  s.data.all Char.isWhitespace

/-- Fraction of characters with code point < 128:
`len([c for c in text if ord(c) < 128]) / len(text)`. -/
def asciiRatio (s : String) : ℚ :=
  (s.data.countP (fun c => c.toNat < 128) : ℚ) / (s.data.length : ℚ)

/-- A value passed from Python callers: either an actual `str` or any
non-string value (every non-string is rejected by the same
`isinstance(text, str)` guard, so one constructor suffices). -/
inductive PyInput where
  | ofString (s : String)
  | nonString
deriving DecidableEq

/-- `classify_sentiment` on an actual string
(`youtube_service.py:254-271`; `app.py:188-201` is textually identical).
The VADER compound score of the text is the parameter `k`. -/
def classifySentimentStr (s : String) (k : ℚ) : String :=
  if stripBlank s then "neutral"
  else if mkRat 1 20 ≤ k then "positive"
  else if k ≤ -(mkRat 1 20) then "negative"
  else "neutral"

/-- `classify_sentiment` including the `isinstance(text, str)` guard. -/
def classifySentimentPy (x : PyInput) (k : ℚ) : String :=
  match x with
  | .nonString => "neutral"
  | .ofString s => classifySentimentStr s k

/-- Python `\w` restricted to ASCII: alphanumeric or underscore. -/
def isWordChar (c : Char) : Bool :=
  c.isAlphanum || c = '_'

/-- Maximal runs of word characters of a character list
(the `\b`-delimited words of the text). -/
def wordRuns (cs : List Char) : List (List Char) :=
  go [] cs
where
  go (acc : List Char) : List Char → List (List Char)
    | [] => if acc.isEmpty then [] else [acc.reverse]
    | c :: rest =>
      if isWordChar c then go (c :: acc) rest
      else if acc.isEmpty then go [] rest
      else acc.reverse :: go [] rest

/-- `re.search(r'\b[A-Z]{2,}\b', comment)`: some maximal word run consists
entirely of ASCII capitals and has length at least 2. -/
def hasCapsWord (s : String) : Bool :=
  (wordRuns s.data).any (fun r => 2 ≤ r.length && r.all (fun c => 'A' ≤ c && c ≤ 'Z'))

/-- The sarcasm keyword/emoji configuration lists
(`negative_context_keywords`, `sarcasm_indicators`, `emoji_indicators`). -/
structure SarcasmConfig where
  negKeywords : List String
  sarcasmIndicators : List String
  emojiIndicators : List String

/-- The configuration built in `EnhancedYouTubeService.__init__`
(`youtube_service.py:42-54`). -/
def svcSarcasmConfig : SarcasmConfig where
  negKeywords :=
    ["clickbait", "waste of time", "fake", "scam", "slow", "unwatchable",
     "ads", "noise", "laggy", "again", "great job", "thanks a lot",
     "as always", "fell off", "boring", "skip", "trash", "garbage"]
  sarcasmIndicators :=
    ["sure", "totally", "wow", "thanks a lot", "great job", "genius",
     "lmao", "lol", "yeah right", "can't wait", "so helpful", "this aged well",
     "obviously", "clearly", "of course", "naturally"]
  emojiIndicators := ["🙄", "😒", "🤡", "😂", "🤣", "😑", "😏", "😤"]

/-- The configuration built in `YouTubeCommentAnalyzer.__init__`
(`app.py:57-69`).  The emoji entries are the mojibake four-character
sequences literally present in that source file. -/
def appSarcasmConfig : SarcasmConfig where
  negKeywords :=
    ["clickbait", "waste of time", "fake", "scam", "slow", "unwatchable",
     "ads", "noise", "laggy", "again", "great job", "thanks a lot",
     "as always", "fell off"]
  sarcasmIndicators :=
    ["sure", "totally", "wow", "thanks a lot", "great job", "genius",
     "lmao", "lol", "yeah right", "can't wait", "so helpful", "this aged well"]
  emojiIndicators :=
    ["ðŸ™„", "ðŸ˜’",
     "ðŸ¤¡", "ðŸ˜‚",
     "ðŸ¤£", "ðŸ˜‘"]

/-- `any(kw in text for kw in self.negative_context_keywords)` where
`text = comment.lower()`. -/
def hasNegCtx (cfg : SarcasmConfig) (comment : String) : Bool :=
  cfg.negKeywords.any (fun kw => strContainsSub kw (lowerS comment))

/-- `any(kw in text for kw in self.sarcasm_indicators)`. -/
def hasSarcasmClue (cfg : SarcasmConfig) (comment : String) : Bool :=
  cfg.sarcasmIndicators.any (fun kw => strContainsSub kw (lowerS comment))

/-- `any(e in text for e in self.emoji_indicators)`. -/
def hasEmojiClue (cfg : SarcasmConfig) (comment : String) : Bool :=
  cfg.emojiIndicators.any (fun e => strContainsSub e (lowerS comment))

/-- `'"' in comment or "'" in comment`. -/
def hasQuotes (comment : String) : Bool :=
  strContainsSub "\"" comment || strContainsSub "'" comment

/-- The five weighted base signals of the service sarcasm detector
(`youtube_service.py:288-301`): negative context 2, sarcasm indicator 2,
emoji 1, ALL-CAPS word 1, quotation marks 1. -/
def sarcasmBaseScore (n cl em cp qt : Bool) : Nat :=
  (if n then 2 else 0) + (if cl then 2 else 0) + (if em then 1 else 0) +
    (if cp then 1 else 0) + (if qt then 1 else 0)

/-- The full `sarcasm_score` accumulated by `youtube_service.py:287-310`:
base signals plus the two compound-sentiment bonuses. -/
def sarcasmScore (n cl em cp qt : Bool) (k : ℚ) : Nat :=
  sarcasmBaseScore n cl em cp qt +
    (if mkRat 2 5 < k ∧ (n || cl) then 2 else 0) +
    (if k < mkRat 2 5 ∧ (cl || em) ∧ n then 2 else 0)

/-- `detect_sarcasm` of the enhanced service on an actual string
(`youtube_service.py:273-311`).  `k` is the VADER compound score of the
lowercased comment. -/
def detectSarcasmSvcStr (cfg : SarcasmConfig) (comment : String) (k : ℚ) : String :=
  let n := hasNegCtx cfg comment
  let cl := hasSarcasmClue cfg comment
  let em := hasEmojiClue cfg comment
  let cp := hasCapsWord comment
  let qt := hasQuotes comment
  if 3 ≤ sarcasmScore n cl em cp qt k then "sarcastic" else "not sarcastic"

/-- Service `detect_sarcasm` including the `isinstance` guard. -/
def detectSarcasmSvcPy (cfg : SarcasmConfig) (x : PyInput) (k : ℚ) : String :=
  match x with
  | .nonString => "not sarcastic"
  | .ofString s => detectSarcasmSvcStr cfg s k

/-- `detect_sarcasm` of `YouTubeCommentAnalyzer` (`app.py:165-186`):
two short-circuit rules, no weighted score and no quotation signal. -/
def detectSarcasmAppStr (cfg : SarcasmConfig) (comment : String) (k : ℚ) : String :=
  let n := hasNegCtx cfg comment
  let cl := hasSarcasmClue cfg comment
  let em := hasEmojiClue cfg comment
  let cp := hasCapsWord comment
  if mkRat 2 5 < k ∧ (n || cl || em || cp) then "sarcastic"
  else if k < mkRat 2 5 ∧ (cl || em) ∧ n then "sarcastic"
  else "not sarcastic"

/-- Whether the word-character sequence `w` occurs at the head of `t`
with regex word boundaries on both sides (`prev` is the character just
before `t`, if any). -/
def boundedWordAt (w : List Char) (prev : Option Char) (t : List Char) : Bool :=
  w.isPrefixOf t &&
    (match prev with | none => true | some c => !isWordChar c) &&
    (match t.drop w.length with | [] => true | c :: _ => !isWordChar c)

/-- Scan of `hasBoundedWord` carrying the previous character. -/
def hasBoundedWordAux (w : List Char) (prev : Option Char) : List Char → Bool
  | [] => boundedWordAt w prev []
  | c :: cs => boundedWordAt w prev (c :: cs) || hasBoundedWordAux w (some c) cs

/-- `re.search(r'\b<w>\b', t)` for an alternative `w` made of word
characters and literal spaces (all question-pattern alternatives are). -/
def hasBoundedWord (w t : String) : Bool :=
  hasBoundedWordAux w.data none t.data

/-- `re.search(r'\?$', t)`: `$` matches at the end of the string or just
before one trailing newline. -/
def searchQmDollar (t : String) : Bool :=
  let cs := if t.data.getLast? = some '\n' then t.data.dropLast else t.data
  cs.getLast? = some '?'

/-- Word alternatives of `r'\b(how|what|when|where|why|who|which|whose|whom)\b'`. -/
def questionWhWords : List String :=
  ["how", "what", "when", "where", "why", "who", "which", "whose", "whom"]

/-- Alternatives of `r'\b(can you|could you|would you|will you)\b'`. -/
def questionCanPhrases : List String :=
  ["can you", "could you", "would you", "will you"]

/-- Alternatives of `r'\b(do you|does it|is it|are you)\b'`. -/
def questionDoPhrases : List String :=
  ["do you", "does it", "is it", "are you"]

/-- `is_question` (`youtube_service.py:314-325`): some question pattern
matches the lowercased text. -/
def isQuestionSvc (text : String) : Bool :=
  let tl := lowerS text
  searchQmDollar tl ||
    questionWhWords.any (fun w => hasBoundedWord w tl) ||
    questionCanPhrases.any (fun w => hasBoundedWord w tl) ||
    questionDoPhrases.any (fun w => hasBoundedWord w tl)

/-- `any(word in t for word in kws)`. -/
def hasAnyKw (kws : List String) (t : String) : Bool :=
  kws.any (fun k => strContainsSub k t)

/-- `categorize_comment` of the enhanced service on an actual string
(`youtube_service.py:327-363`): question first, then five keyword sets. -/
def categorizeCommentSvcStr (text : String) : String :=
  let tl := lowerS text
  if isQuestionSvc text then "question"
  else if hasAnyKw ["great", "awesome", "love", "amazing", "perfect", "excellent",
      "fantastic", "brilliant"] tl then "appreciation"
  else if hasAnyKw ["bad", "terrible", "awful", "hate", "dislike", "worst",
      "garbage", "trash", "boring"] tl then "criticism"
  else if hasAnyKw ["should", "could", "would", "suggest", "recommend", "maybe",
      "perhaps", "consider"] tl then "suggestion"
  else if hasAnyKw ["feedback", "review", "thought", "opinion", "think", "feel"] tl
    then "feedback"
  else if hasAnyKw ["subscribe", "like", "comment", "check out my channel",
      "follow me"] tl then "spam"
  else "other"

/-- Service `categorize_comment` including the `isinstance` guard. -/
def categorizeCommentSvcPy (x : PyInput) : String :=
  match x with
  | .nonString => "other"
  | .ofString s => categorizeCommentSvcStr s

/-- Appreciation keywords of `analytics_api.categorize_comments`. -/
def apiAppreciationWords : List String :=
  ["great", "awesome", "love", "amazing", "perfect", "excellent", "fantastic",
   "brilliant", "wonderful", "outstanding"]

/-- Criticism keywords of `analytics_api.categorize_comments`. -/
def apiCriticismWords : List String :=
  ["bad", "terrible", "awful", "hate", "dislike", "worst", "garbage", "trash",
   "boring", "disappointing"]

/-- Suggestion keywords of `analytics_api.categorize_comments`. -/
def apiSuggestionWords : List String :=
  ["should", "could", "would", "suggest", "recommend", "maybe", "perhaps",
   "consider", "try"]

/-- Feedback keywords of `analytics_api.categorize_comments`. -/
def apiFeedbackWords : List String :=
  ["feedback", "review", "thought", "opinion", "think", "feel", "experience"]

/-- Spam keywords of `analytics_api.categorize_comments`. -/
def apiSpamWords : List String :=
  ["subscribe", "like", "comment", "check out my channel", "follow me",
   "watch my video", "click here", "free"]

/-- Humor keywords of `analytics_api.categorize_comments`; the last three
entries are the mojibake sequences literally present in the source file. -/
def apiHumorWords : List String :=
  ["lol", "haha", "funny", "joke", "hilarious", "comedy",
   "ðŸ˜‚", "ðŸ¤£",
   "ðŸ˜„"]

/-- Technical keywords of `analytics_api.categorize_comments`. -/
def apiTechnicalWords : List String :=
  ["how", "what", "when", "where", "why", "setup", "config", "install",
   "error", "problem", "solution"]

/-- Personal keywords of `analytics_api.categorize_comments`. -/
def apiPersonalWords : List String :=
  ["i", "me", "my", "myself", "personal", "experience", "story", "life"]

/-- The ten labels actually produced by `analytics_api.categorize_comments`
(the `categories` dictionary keys, `analytics_api.py:374-385`). -/
def apiCategoryLabels : List String :=
  ["appreciation", "criticism", "questions", "suggestions", "feedback",
   "spam", "humor", "technical", "personal", "other"]

/-- Per-comment category assignment of `analytics_api.categorize_comments`
(`analytics_api.py:397-441`): the comment text is lowercased, then an
if/elif cascade assigns the first matching label, `'?'`-containment being
the questions trigger. -/
def categorizeApi (commentText : String) : String :=
  let text := lowerS commentText
  if hasAnyKw apiAppreciationWords text then "appreciation"
  else if hasAnyKw apiCriticismWords text then "criticism"
  else if strContainsSub "?" text then "questions"
  else if hasAnyKw apiSuggestionWords text then "suggestions"
  else if hasAnyKw apiFeedbackWords text then "feedback"
  else if hasAnyKw apiSpamWords text then "spam"
  else if hasAnyKw apiHumorWords text then "humor"
  else if hasAnyKw apiTechnicalWords text then "technical"
  else if hasAnyKw apiPersonalWords text then "personal"
  else "other"

/-- `is_english` (`youtube_service.py:365-379`; `app.py:149-163` is
textually identical).  `det` is the `langid.classify(text)` outcome:
`some (lang, confidence)` on success, `none` when the detector raises
(the fallback path; its inner ASCII-ratio computation cannot itself raise
for a non-empty string, so the final `return False` is unreachable). -/
def isEnglishPy (x : PyInput) (det : Option (String × ℚ)) : Bool :=
  match x with
  | .nonString => false
  | .ofString s =>
    if stripBlank s then false
    else
      match det with
      | some (lang, conf) =>
        (lang = "en" && decide (mkRat 1 2 < conf)) ||
          (lang = "en" && decide (mkRat 7 10 < asciiRatio s))
      | none => decide (mkRat 4 5 < asciiRatio s)

/-- Engagement rate of `analytics_api.get_detailed_video_info`
(`analytics_api.py:116`):
`((like_count + comment_count) / view_count * 100) if view_count > 0 else 0`. -/
def engagementRateApi (views likes comments : ℕ) : ℚ :=
  if 0 < views then ((likes : ℚ) + (comments : ℚ)) / (views : ℚ) * 100 else 0

/-- Engagement rate of `EnhancedYouTubeService.get_video_analytics`
(`youtube_service.py:425`):
`(like_count + comment_count) / view_count if view_count > 0 else 0`. -/
def engagementRateSvc (views likes comments : ℕ) : ℚ :=
  if 0 < views then ((likes : ℚ) + (comments : ℚ)) / (views : ℚ) else 0

/-- A comment record after per-comment classification, as consumed by the
aggregation loop of `get_video_analytics` (`youtube_service.py:436-448`). -/
structure ClassifiedComment where
  sentiment : String
  category : String
  is_question : Bool
  is_english : Bool

/-- `d[k] = d.get(k, 0) + 1` on an insertion-ordered dictionary. -/
def bump (d : List (String × ℕ)) (k : String) : List (String × ℕ) :=
  match d with
  | [] => [(k, 1)]
  | (k', n) :: rest => if k' = k then (k', n + 1) :: rest else (k', n) :: bump rest k

/-- Total of all bucket counts of a histogram. -/
def sumCounts (d : List (String × ℕ)) : ℕ :=
  (d.map Prod.snd).sum

/-- The aggregation loop of `get_video_analytics`
(`youtube_service.py:436-448`): one pass over the comments, bumping the
sentiment bucket and the category bucket of each comment. -/
def commentDistributions (comments : List ClassifiedComment) :
    List (String × ℕ) × List (String × ℕ) :=
  comments.foldl (fun d c => (bump d.1 c.sentiment, bump d.2 c.category)) ([], [])

/-- Python `\s` restricted to ASCII. -/
def isPySpace (c : Char) : Bool :=
  c = ' ' || c = '\t' || c = '\n' || c = '\r' || c = '\x0B' || c = '\x0C'

/-- Character-class membership: inside one of the `ranges`, or one of the
`extra` characters. -/
def charInCls (ranges : List (Char × Char)) (extra : List Char) (c : Char) : Bool :=
  ranges.any (fun r => r.1 ≤ c && c ≤ r.2) || extra.contains c

/-- Consume a case-insensitive literal from the head of the input
(regex literal under `re.IGNORECASE`). -/
def stripLitCI : List Char → List Char → Option (List Char)
  | [], cs => some cs
  | _ :: _, [] => none
  | w :: wrest, c :: cs =>
    if w.toLower = c.toLower then stripLitCI wrest cs else none

/-- Consume a case-sensitive literal from the head of the input. -/
def stripLit : List Char → List Char → Option (List Char)
  | [], cs => some cs
  | _ :: _, [] => none
  | w :: wrest, c :: cs => if w = c then stripLit wrest cs else none

/-- Tokens of the regex dialect used by `detect_sponsorships`
(`youtube_service.py:565-631`), all compiled with `re.IGNORECASE`:
case-insensitive literals, `\s+`, `.*?`, single and one-or-more character
classes, alternation, `$`. -/
inductive Tok where
  | lit : List Char → Tok
  | ws : Tok
  | gap : Tok
  | cls : List (Char × Char) → List Char → Tok
  | clsPlus : List (Char × Char) → List Char → Tok
  | alt : List (List Tok) → Tok
  | tEnd : Tok

/-- Literal token from a string. -/
def tokLit (s : String) : Tok :=
  .lit s.data

/-- Fuel-indexed backtracking matcher: does the token sequence match a
prefix of the input?  Each recursive call either consumes an input
character or strictly shrinks the pending token work, so any fuel above
`(input length + 1) * (pattern size + 1)` is equivalent to unbounded
search; `matchFuel` below is generous for every pattern in this file. -/
def matchToks : ℕ → List Tok → List Char → Bool
  | 0, _, _ => false
  | _ + 1, [], _ => true
  | fuel + 1, (.lit w) :: ts, cs =>
    match stripLitCI w cs with
    | some rest => matchToks fuel ts rest
    | none => false
  | fuel + 1, .ws :: ts, cs =>
    match cs with
    | [] => false
    | c :: rest => isPySpace c && (matchToks fuel ts rest || matchToks fuel (.ws :: ts) rest)
  | fuel + 1, .gap :: ts, cs =>
    matchToks fuel ts cs ||
      (match cs with
       | [] => false
       | c :: rest => c != '\n' && matchToks fuel (.gap :: ts) rest)
  | fuel + 1, (.cls rs ex) :: ts, cs =>
    match cs with
    | [] => false
    | c :: rest => charInCls rs ex c && matchToks fuel ts rest
  | fuel + 1, (.clsPlus rs ex) :: ts, cs =>
    match cs with
    | [] => false
    | c :: rest =>
      charInCls rs ex c && (matchToks fuel ts rest || matchToks fuel ((.clsPlus rs ex) :: ts) rest)
  | fuel + 1, (.alt bs) :: ts, cs => bs.any (fun b => matchToks fuel (b ++ ts) cs)
  | fuel + 1, .tEnd :: ts, cs => cs.isEmpty && matchToks fuel ts cs

/-- Fuel sufficient for every pattern below on the given input. -/
def matchFuel (cs : List Char) : ℕ :=
  (cs.length + 1) * 100

/-- `re.search`-style existence: the pattern matches starting at some
position of the input (`re.findall(p, text)` is non-empty). -/
def matchSomewhere (p : List Tok) : List Char → Bool
  | [] => matchToks (matchFuel []) p []
  | c :: rest => matchToks (matchFuel (c :: rest)) p (c :: rest) || matchSomewhere p rest

/-- `[A-Z0-9]` under `re.IGNORECASE`. -/
def alnumRanges : List (Char × Char) :=
  [('a', 'z'), ('A', 'Z'), ('0', '9')]

/-- `[A-Z]` under `re.IGNORECASE`. -/
def alphaRanges : List (Char × Char) :=
  [('a', 'z'), ('A', 'Z')]

/-- Extra characters of the class `[a-zA-Z\s&]` (ASCII `\s` plus `&`). -/
def nameExtras : List Char :=
  [' ', '\t', '\n', '\r', '\x0B', '\x0C', '&']

/-- The 19 `sponsorship_indicators` regexes (`youtube_service.py:565-585`),
token by token. -/
def sponsorshipIndicatorPatterns : List (List Tok) :=
  [[tokLit "sponsored", .ws, tokLit "by"],
   [tokLit "this", .ws, tokLit "video", .ws, tokLit "is", .ws, tokLit "sponsored", .ws, tokLit "by"],
   [tokLit "thanks", .ws, tokLit "to", .ws, .gap, .ws, tokLit "for", .ws, tokLit "sponsoring"],
   [tokLit "partnered", .ws, tokLit "with"],
   [tokLit "in", .ws, tokLit "partnership", .ws, tokLit "with"],
   [tokLit "promotion", .ws, tokLit "code"],
   [tokLit "discount", .ws, tokLit "code"],
   [tokLit "use", .ws, tokLit "code", .ws, .clsPlus alnumRanges []],
   [tokLit "promo", .ws, tokLit "code"],
   [tokLit "coupon", .ws, tokLit "code"],
   [tokLit "check", .ws, tokLit "out", .ws, .gap, .ws, tokLit "link", .ws, tokLit "in", .ws, tokLit "description"],
   [tokLit "link", .ws, tokLit "in", .ws, tokLit "description"],
   [tokLit "click", .ws, tokLit "the", .ws, tokLit "link", .ws, tokLit "below"],
   [tokLit "visit", .ws, .gap, .ws, tokLit "com"],
   [tokLit "go", .ws, tokLit "to", .ws, .gap, .ws, tokLit "com"],
   [tokLit "head", .ws, tokLit "over", .ws, tokLit "to"],
   [tokLit "check", .ws, tokLit "out", .ws, .gap, .ws, tokLit "website"],
   [tokLit "visit", .ws, .gap, .ws, tokLit "website"],
   [tokLit "go", .ws, tokLit "to", .ws, .gap, .ws, tokLit "website"]]

/-- Name-capture terminator `(?:\s+<w>|\.|,|$)`. -/
def nameTerm (w : String) : Tok :=
  .alt [[.ws, tokLit w], [tokLit "."], [tokLit ","], [.tEnd]]

/-- The 5 `company_patterns` regexes (`youtube_service.py:621-627`): a
trigger phrase, then the capture `([A-Z][a-zA-Z\s&]+?)`, then a
terminator.  Only whether some pattern matches is consumed downstream. -/
def companyExtractPatterns : List (List Tok) :=
  [[.alt [[tokLit "sponsored by"], [tokLit "partnered with"], [tokLit "thanks to"]],
    .ws, .cls alphaRanges [], .clsPlus alphaRanges nameExtras, nameTerm "for"],
   [tokLit "check out ", .cls alphaRanges [], .clsPlus alphaRanges nameExtras, nameTerm "at"],
   [tokLit "visit ", .cls alphaRanges [], .clsPlus alphaRanges nameExtras, nameTerm "com"],
   [tokLit "go to ", .cls alphaRanges [], .clsPlus alphaRanges nameExtras, nameTerm "com"],
   [tokLit "head over to ", .cls alphaRanges [], .clsPlus alphaRanges nameExtras, nameTerm "com"]]

/-- The `sponsorship_companies` list (`youtube_service.py:588-602`). -/
def sponsorshipCompanies : List String :=
  ["nordvpn", "expressvpn", "surfshark", "protonvpn", "cyberghost",
   "skillshare", "masterclass", "udemy", "coursera", "brilliant",
   "audible", "spotify", "amazon", "shopify", "squarespace",
   "wix", "bluehost", "hostinger", "godaddy", "namecheap",
   "grammarly", "honey", "raid", "mobile legends", "genshin impact",
   "raycon", "airpods", "samsung", "apple", "google",
   "microsoft", "adobe", "canva", "figma", "notion",
   "robinhood", "coinbase", "binance", "stripe", "paypal",
   "uber", "lyft", "doordash", "ubereats", "grubhub",
   "netflix", "disney+", "hulu", "hbo max", "paramount+",
   "nike", "adidas", "puma", "under armour", "reebok",
   "coca cola", "pepsi", "red bull", "monster", "gatorade",
   "mcdonalds", "burger king", "kfc", "subway", "dominos",
   "starbucks", "dunkin", "tim hortons", "peets", "caribou"]

/-- One attempted discount-code match starting at the head of the input:
`(?:use|promo|discount|coupon)\s+code\s+([A-Z0-9]+)` under `IGNORECASE`.
Returns the captured code and the input after the whole match. -/
def tryCodeKw (kw : String) (cs : List Char) : Option (List Char × List Char) :=
  match stripLitCI kw.data cs with
  | none => none
  | some r1 =>
    match r1 with
    | [] => none
    | c :: rest1 =>
      if isPySpace c then
        let r2 := rest1.dropWhile isPySpace
        match stripLitCI "code".data r2 with
        | none => none
        | some r3 =>
          match r3 with
          | [] => none
          | c' :: rest3 =>
            if isPySpace c' then
              let r4 := rest3.dropWhile isPySpace
              let code := r4.takeWhile (charInCls alnumRanges [])
              if code.isEmpty then none else some (code, r4.drop code.length)
            else none
      else none

/-- Try each of the four trigger keywords, in the regex's order. -/
def tryCodeAt (cs : List Char) : Option (List Char × List Char) :=
  tryCodeKw "use" cs <|> tryCodeKw "promo" cs <|> tryCodeKw "discount" cs <|>
    tryCodeKw "coupon" cs

/-- Leftmost non-overlapping scan of `re.findall` for discount codes
(fuel = input length; every successful match consumes at least one
character). -/
def scanCodesAux : ℕ → List Char → List (List Char)
  | 0, _ => []
  | _, [] => []
  | fuel + 1, c :: cs =>
    match tryCodeAt (c :: cs) with
    | some (code, rest) => code :: scanCodesAux fuel rest
    | none => scanCodesAux fuel cs

/-- `re.findall(r'(?:use|promo|discount|coupon)\s+code\s+([A-Z0-9]+)',
full_text, re.IGNORECASE)`. -/
def scanCodes (cs : List Char) : List (List Char) :=
  scanCodesAux cs.length cs

/-- One attempted URL match at the head of the input:
`https?://[^\s]+` (greedy `s?`, then at least one non-space). -/
def tryUrlAt (cs : List Char) : Option (List Char × List Char) :=
  match stripLit "https://".data cs with
  | some r =>
    let u := r.takeWhile (fun c => !isPySpace c)
    if u.isEmpty then none else some ("https://".data ++ u, r.drop u.length)
  | none =>
    match stripLit "http://".data cs with
    | some r =>
      let u := r.takeWhile (fun c => !isPySpace c)
      if u.isEmpty then none else some ("http://".data ++ u, r.drop u.length)
    | none => none

/-- Leftmost non-overlapping scan for URLs. -/
def scanUrlsAux : ℕ → List Char → List (List Char)
  | 0, _ => []
  | _, [] => []
  | fuel + 1, c :: cs =>
    match tryUrlAt (c :: cs) with
    | some (u, rest) => u :: scanUrlsAux fuel rest
    | none => scanUrlsAux fuel cs

/-- `re.findall(r'https?://[^\s]+', full_text)`. -/
def scanUrls (cs : List Char) : List (List Char) :=
  scanUrlsAux cs.length cs

/-- `list(set(xs))`: duplicate removal.  Python's set order is
unspecified; first-occurrence order is used here, membership being the
only property consumed. -/
def dedupStr (l : List String) : List String :=
  l.foldl (fun acc x => if acc.contains x then acc else acc ++ [x]) []

/-- Result record of `detect_sponsorships`.  The `detected_indicators`
and `extracted_companies` lists of matched fragments are embedded by
their emptiness flags (`hasIndicators`, `hasExtractedCompanies`), the
only property the function itself consumes; `sponsorship_text` (a
separate second extraction pass) is omitted. -/
structure SponsorshipResult where
  has_sponsorship : Bool
  sponsorship_level : String
  confidence_score : ℕ
  hasIndicators : Bool
  detected_companies : List String
  hasExtractedCompanies : Bool
  discount_codes : List String
  urls : List String

/-- `full_text = f"{title} {description} {transcript}".lower()`. -/
def sponsorshipCorpus (transcript title description : String) : String :=
  lowerS (title ++ " " ++ description ++ " " ++ transcript)

/-- `detected_indicators` is non-empty: some indicator pattern matches. -/
def hasIndicatorMatch (full : String) : Bool :=
  sponsorshipIndicatorPatterns.any (fun p => matchSomewhere p full.data)

/-- `detected_companies`: the known companies occurring in the corpus. -/
def detectedCompanies (full : String) : List String :=
  sponsorshipCompanies.filter (fun c => strContainsSub c full)

/-- `extracted_companies` is non-empty: some extraction pattern matches. -/
def hasCompanyExtract (full : String) : Bool :=
  companyExtractPatterns.any (fun p => matchSomewhere p full.data)

/-- `discount_codes` as found by the `findall` scan (before `set` dedup). -/
def discountCodesOf (full : String) : List String :=
  (scanCodes full.data).map (fun l => (⟨l⟩ : String))

/-- `urls` as found by the `findall` scan (before `set` dedup). -/
def urlsOf (full : String) : List String :=
  (scanUrls full.data).map (fun l => (⟨l⟩ : String))

/-- The `confidence_score` accumulation (`youtube_service.py:641-652`):
`+30` if some indicator matched, `+25` if some known company was found,
`+20` if some company name was extracted, `+15` if some discount code was
found, `+10` if some URL was found. -/
def sponsorshipConfidence (full : String) : ℕ :=
  (if hasIndicatorMatch full then 30 else 0) +
    (if !(detectedCompanies full).isEmpty then 25 else 0) +
    (if hasCompanyExtract full then 20 else 0) +
    (if !(discountCodesOf full).isEmpty then 15 else 0) +
    (if !(urlsOf full).isEmpty then 10 else 0)

/-- `detect_sponsorships(transcript, title, description)`
(`youtube_service.py:561-686`): lowercase the concatenation
`title description transcript`, run the indicator patterns, the known
company list, the extraction patterns, the code scan and the URL scan,
then add the five confidence increments and derive level and verdict. -/
def detectSponsorships (transcript title description : String) : SponsorshipResult :=
  let full := sponsorshipCorpus transcript title description
  let score := sponsorshipConfidence full
  { has_sponsorship := decide (20 ≤ score)
    sponsorship_level :=
      if 70 ≤ score then "high" else if 40 ≤ score then "medium"
      else if 20 ≤ score then "low" else "none"
    confidence_score := score
    hasIndicators := hasIndicatorMatch full
    detected_companies := dedupStr (detectedCompanies full)
    hasExtractedCompanies := hasCompanyExtract full
    discount_codes := dedupStr (discountCodesOf full)
    urls := dedupStr (urlsOf full) }

/-! ## Helper lemmas -/

/-- The executable literal `mkRat 1 20` is the threshold `0.05`. -/
theorem mkRat_one_twentieth : mkRat 1 20 = (1 : ℚ) / 20 := by
  norm_num [mkRat]

/-- The executable literal `mkRat 2 5` is the threshold `0.4`. -/
theorem mkRat_two_fifths : mkRat 2 5 = (2 : ℚ) / 5 := by
  norm_num [mkRat]

/-- The executable literal `mkRat 1 2` is the threshold `0.5`. -/
theorem mkRat_one_half : mkRat 1 2 = (1 : ℚ) / 2 := by
  norm_num [mkRat]

/-- The executable literal `mkRat 7 10` is the threshold `0.7`. -/
theorem mkRat_seven_tenths : mkRat 7 10 = (7 : ℚ) / 10 := by
  norm_num [mkRat]

/-- The executable literal `mkRat 4 5` is the threshold `0.8`. -/
theorem mkRat_four_fifths : mkRat 4 5 = (4 : ℚ) / 5 := by
  norm_num [mkRat]

/-- Bumping one bucket raises the histogram total by exactly one. -/
theorem sumCounts_bump (d : List (String × ℕ)) (k : String) :
    sumCounts (bump d k) = sumCounts d + 1 := by
  induction d with
  | nil => simp [bump, sumCounts]
  | cons hd tl ih =>
    obtain ⟨k', n⟩ := hd
    by_cases h : k' = k <;> simp [bump, h, sumCounts] at ih ⊢ <;> omega

/-- Accumulator form of the histogram-total invariant for the
`get_video_analytics` aggregation loop. -/
theorem commentDistributions_foldl (comments : List ClassifiedComment)
    (d : List (String × ℕ) × List (String × ℕ)) :
    sumCounts (comments.foldl
        (fun d c => (bump d.1 c.sentiment, bump d.2 c.category)) d).1 =
      sumCounts d.1 + comments.length ∧
    sumCounts (comments.foldl
        (fun d c => (bump d.1 c.sentiment, bump d.2 c.category)) d).2 =
      sumCounts d.2 + comments.length := by
  induction comments generalizing d with
  | nil => simp
  | cons c rest ih =>
    obtain ⟨ih1, ih2⟩ := ih (bump d.1 c.sentiment, bump d.2 c.category)
    constructor
    · simp only [List.foldl_cons, ih1, sumCounts_bump]
      simp; omega
    · simp only [List.foldl_cons, ih2, sumCounts_bump]
      simp; omega

/-- The accumulated `sarcasm_score` reaches the sarcasm threshold exactly
when the five-signal base score does, or when the compound score exceeds
0.4 together with a negative-context or sarcasm-indicator keyword. -/
theorem sarcasmScore_ge_three_iff (n cl em cp qt : Bool) (k : ℚ) :
    3 ≤ sarcasmScore n cl em cp qt k ↔
      3 ≤ sarcasmBaseScore n cl em cp qt ∨
        (mkRat 2 5 < k ∧ (n = true ∨ cl = true)) := by
  rcases n <;> rcases cl <;> rcases em <;> rcases cp <;> rcases qt <;>
    by_cases hk : mkRat 2 5 < k <;> by_cases hk' : k < mkRat 2 5 <;>
      simp [sarcasmScore, sarcasmBaseScore, hk, hk']

/-- Each confidence component contributes at most once, so the additive
total never exceeds `30 + 25 + 20 + 15 + 10 = 100`. -/
theorem sponsorshipConfidence_le_100 (full : String) :
    sponsorshipConfidence full ≤ 100 := by
  unfold sponsorshipConfidence
  split_ifs <;> norm_num

/-- The ASCII ratio of `"bonjour"` is 7/7 = 1. -/
theorem asciiRatio_bonjour : asciiRatio "bonjour" = 1 := by
  have h1 : ("bonjour".data.countP (fun c => c.toNat < 128)) = 7 := by decide
  have h2 : ("bonjour".data.length) = 7 := by decide
  unfold asciiRatio
  rw [h1, h2]
  norm_num

/-! ## Claim theorems -/

/-- C2 (counterexample): the claim's formula fails on the code: the
engagement rate computed by `get_video_analytics`
(`youtube_service.py:425`) at `view_count = 1000`, `like_count = 50`,
`comment_count = 10` is `3/50 = 0.06`, not the claimed `6.0`. -/
theorem C2_engagement_rate_counterexample :
    engagementRateSvc 1000 50 10 = 3 / 50 ∧ ((3 : ℚ) / 50) ≠ 6 := by
  constructor
  · norm_num [engagementRateSvc]
  · norm_num

/-- C2 (amended): `get_detailed_video_info` (`analytics_api.py:116`)
computes `engagement_rate = (likes + comments) / views * 100` for
positive views and `0` for zero views, yielding exactly `6.0` on the
`views=1000, likes=50, comments=10` scenario; `get_video_analytics`
(`youtube_service.py:425`) computes the same quotient without the
`* 100` factor, yielding `0.06` on that scenario (and `0` for zero
views). -/
theorem C2_engagement_rate_formulas :
    (∀ v l c : ℕ, 0 < v →
      engagementRateApi v l c = ((l : ℚ) + (c : ℚ)) / (v : ℚ) * 100) ∧
    (∀ l c : ℕ, engagementRateApi 0 l c = 0) ∧
    engagementRateApi 1000 50 10 = 6 ∧
    (∀ v l c : ℕ, 0 < v →
      engagementRateSvc v l c = ((l : ℚ) + (c : ℚ)) / (v : ℚ)) ∧
    (∀ l c : ℕ, engagementRateSvc 0 l c = 0) ∧
    engagementRateSvc 1000 50 10 = 3 / 50 := by
  refine ⟨fun v l c hv => ?_, fun l c => ?_, ?_, fun v l c hv => ?_, fun l c => ?_, ?_⟩
  · simp [engagementRateApi, hv]
  · simp [engagementRateApi]
  · norm_num [engagementRateApi]
  · simp [engagementRateSvc, hv]
  · simp [engagementRateSvc]
  · norm_num [engagementRateSvc]

/-- C2 (witness): the positive-views branches of the amended theorem
applied at `views=4, likes=1, comments=1`. -/
theorem C2_engagement_rate_formulas_witness :
    engagementRateApi 4 1 1 = ((1 : ℚ) + (1 : ℚ)) / (4 : ℚ) * 100 ∧
    engagementRateSvc 4 1 1 = ((1 : ℚ) + (1 : ℚ)) / (4 : ℚ) :=
  ⟨C2_engagement_rate_formulas.1 4 1 1 (by norm_num),
   C2_engagement_rate_formulas.2.2.2.1 4 1 1 (by norm_num)⟩

/-- C4: `classify_sentiment` always returns one of the three labels;
non-string and blank inputs give `neutral`, and on any other string the
verdict is determined by the compound score `k` exactly at the documented
thresholds: `positive` iff `k ≥ 0.05`, `negative` iff `k ≤ -0.05`,
`neutral` otherwise. -/
theorem C4_classify_sentiment_thresholds (s : String) (k : ℚ) :
    classifySentimentPy .nonString k = "neutral" ∧
    classifySentimentPy (.ofString s) k ∈ ["positive", "negative", "neutral"] ∧
    (stripBlank s = true → classifySentimentPy (.ofString s) k = "neutral") ∧
    (stripBlank s = false →
      ((classifySentimentPy (.ofString s) k = "positive" ↔ (1 : ℚ) / 20 ≤ k) ∧
       (classifySentimentPy (.ofString s) k = "negative" ↔ k ≤ -((1 : ℚ) / 20)) ∧
       (classifySentimentPy (.ofString s) k = "neutral" ↔
         ¬((1 : ℚ) / 20 ≤ k) ∧ ¬(k ≤ -((1 : ℚ) / 20))))) := by
  refine ⟨rfl, ?_, fun hb => ?_, fun hb => ?_⟩
  · simp only [classifySentimentPy, classifySentimentStr]
    split_ifs <;> simp
  · simp [classifySentimentPy, classifySentimentStr, hb]
  · simp only [classifySentimentPy, classifySentimentStr, hb, Bool.false_eq_true,
      if_false, mkRat_one_twentieth]
    split_ifs with h1 h2 <;> simp_all
    linarith

/-- C4 (witness): the threshold characterization applied to the
non-blank string `"hi"` at compound scores `1` and `0`. -/
theorem C4_classify_sentiment_thresholds_witness :
    classifySentimentPy (.ofString "hi") 1 = "positive" ∧
    classifySentimentPy (.ofString "hi") 0 = "neutral" :=
  ⟨((C4_classify_sentiment_thresholds "hi" 1).2.2.2 (by decide)).1.mpr (by norm_num),
   ((C4_classify_sentiment_thresholds "hi" 0).2.2.2 (by decide)).2.2.mpr
     (by constructor <;> norm_num)⟩

/-- C6: the aggregation loop of `get_video_analytics` puts every comment
into exactly one sentiment bucket and exactly one category bucket: both
histogram totals equal the number of comments. -/
theorem C6_histograms_sum_to_length (comments : List ClassifiedComment) :
    sumCounts (commentDistributions comments).1 = comments.length ∧
    sumCounts (commentDistributions comments).2 = comments.length := by
  have h := commentDistributions_foldl comments ([], [])
  simpa [commentDistributions, sumCounts] using h

/-- C8: on malformed input — a non-string value, or the empty string —
each classifier returns its safe default instead of raising:
`classify_sentiment` gives `neutral`, `detect_sarcasm` gives
`not sarcastic` (for every compound score `k`), and `categorize_comment`
gives `other`. -/
theorem C8_malformed_input_defaults (k : ℚ) :
    classifySentimentPy .nonString k = "neutral" ∧
    classifySentimentPy (.ofString "") k = "neutral" ∧
    detectSarcasmSvcPy svcSarcasmConfig .nonString k = "not sarcastic" ∧
    detectSarcasmSvcPy svcSarcasmConfig (.ofString "") k = "not sarcastic" ∧
    categorizeCommentSvcPy .nonString = "other" ∧
    categorizeCommentSvcPy (.ofString "") = "other" := by
  have hblank : stripBlank "" = true := by decide
  refine ⟨rfl, by simp [classifySentimentPy, classifySentimentStr, hblank], rfl, ?_,
    rfl, by decide⟩
  have h1 : hasNegCtx svcSarcasmConfig "" = false := by decide
  have h2 : hasSarcasmClue svcSarcasmConfig "" = false := by decide
  have h3 : hasEmojiClue svcSarcasmConfig "" = false := by decide
  have h4 : hasCapsWord "" = false := by decide
  have h5 : hasQuotes "" = false := by decide
  simp [detectSarcasmSvcPy, detectSarcasmSvcStr, sarcasmScore, sarcasmBaseScore,
    h1, h2, h3, h4, h5]

/-- C1 (counterexample): the claim's label set does not hold verbatim:
on `"will it work?"` the categorizer returns `"questions"`, which is not
one of the ten singular labels the claim lists. -/
theorem C1_categorize_counterexample :
    categorizeApi "will it work?" = "questions" ∧
    "questions" ∉ (["appreciation", "criticism", "question", "suggestion",
      "feedback", "spam", "humor", "technical", "personal", "other"] : List String) := by
  constructor
  · decide
  · decide

/-- C1 (amended): `categorize_comments` assigns every comment exactly one
of the ten labels `appreciation, criticism, questions, suggestions,
feedback, spam, humor, technical, personal, other` (the question and
suggestion labels are plural in the code), by a first-match-wins cascade
in exactly that order, `'?'`-containment being the questions trigger; in
particular any text containing an appreciation keyword is labelled
`appreciation` regardless of lower-precedence triggers. -/
theorem C1_categorize_ten_labels_first_match (text : String) :
    categorizeApi text ∈ apiCategoryLabels ∧
    (hasAnyKw apiAppreciationWords (lowerS text) = true →
      categorizeApi text = "appreciation") ∧
    (categorizeApi text = "appreciation" ↔
      hasAnyKw apiAppreciationWords (lowerS text) = true) ∧
    (categorizeApi text = "criticism" ↔
      hasAnyKw apiAppreciationWords (lowerS text) = false ∧
      hasAnyKw apiCriticismWords (lowerS text) = true) ∧
    (categorizeApi text = "questions" ↔
      hasAnyKw apiAppreciationWords (lowerS text) = false ∧
      hasAnyKw apiCriticismWords (lowerS text) = false ∧
      strContainsSub "?" (lowerS text) = true) ∧
    (categorizeApi text = "suggestions" ↔
      hasAnyKw apiAppreciationWords (lowerS text) = false ∧
      hasAnyKw apiCriticismWords (lowerS text) = false ∧
      strContainsSub "?" (lowerS text) = false ∧
      hasAnyKw apiSuggestionWords (lowerS text) = true) ∧
    (categorizeApi text = "feedback" ↔
      hasAnyKw apiAppreciationWords (lowerS text) = false ∧
      hasAnyKw apiCriticismWords (lowerS text) = false ∧
      strContainsSub "?" (lowerS text) = false ∧
      hasAnyKw apiSuggestionWords (lowerS text) = false ∧
      hasAnyKw apiFeedbackWords (lowerS text) = true) ∧
    (categorizeApi text = "spam" ↔
      hasAnyKw apiAppreciationWords (lowerS text) = false ∧
      hasAnyKw apiCriticismWords (lowerS text) = false ∧
      strContainsSub "?" (lowerS text) = false ∧
      hasAnyKw apiSuggestionWords (lowerS text) = false ∧
      hasAnyKw apiFeedbackWords (lowerS text) = false ∧
      hasAnyKw apiSpamWords (lowerS text) = true) ∧
    (categorizeApi text = "humor" ↔
      hasAnyKw apiAppreciationWords (lowerS text) = false ∧
      hasAnyKw apiCriticismWords (lowerS text) = false ∧
      strContainsSub "?" (lowerS text) = false ∧
      hasAnyKw apiSuggestionWords (lowerS text) = false ∧
      hasAnyKw apiFeedbackWords (lowerS text) = false ∧
      hasAnyKw apiSpamWords (lowerS text) = false ∧
      hasAnyKw apiHumorWords (lowerS text) = true) ∧
    (categorizeApi text = "technical" ↔
      hasAnyKw apiAppreciationWords (lowerS text) = false ∧
      hasAnyKw apiCriticismWords (lowerS text) = false ∧
      strContainsSub "?" (lowerS text) = false ∧
      hasAnyKw apiSuggestionWords (lowerS text) = false ∧
      hasAnyKw apiFeedbackWords (lowerS text) = false ∧
      hasAnyKw apiSpamWords (lowerS text) = false ∧
      hasAnyKw apiHumorWords (lowerS text) = false ∧
      hasAnyKw apiTechnicalWords (lowerS text) = true) ∧
    (categorizeApi text = "personal" ↔
      hasAnyKw apiAppreciationWords (lowerS text) = false ∧
      hasAnyKw apiCriticismWords (lowerS text) = false ∧
      strContainsSub "?" (lowerS text) = false ∧
      hasAnyKw apiSuggestionWords (lowerS text) = false ∧
      hasAnyKw apiFeedbackWords (lowerS text) = false ∧
      hasAnyKw apiSpamWords (lowerS text) = false ∧
      hasAnyKw apiHumorWords (lowerS text) = false ∧
      hasAnyKw apiTechnicalWords (lowerS text) = false ∧
      hasAnyKw apiPersonalWords (lowerS text) = true) ∧
    (categorizeApi text = "other" ↔
      hasAnyKw apiAppreciationWords (lowerS text) = false ∧
      hasAnyKw apiCriticismWords (lowerS text) = false ∧
      strContainsSub "?" (lowerS text) = false ∧
      hasAnyKw apiSuggestionWords (lowerS text) = false ∧
      hasAnyKw apiFeedbackWords (lowerS text) = false ∧
      hasAnyKw apiSpamWords (lowerS text) = false ∧
      hasAnyKw apiHumorWords (lowerS text) = false ∧
      hasAnyKw apiTechnicalWords (lowerS text) = false ∧
      hasAnyKw apiPersonalWords (lowerS text) = false) := by
  simp only [categorizeApi]
  split_ifs with h1 h2 h3 h4 h5 h6 h7 h8 h9 <;> simp_all [apiCategoryLabels]

/-- C1 (witness): a comment matching both the appreciation keyword set
(`"great"`) and the lower-precedence questions trigger (`'?'`) is
labelled `appreciation`. -/
theorem C1_categorize_witness :
    categorizeApi "great video?" = "appreciation" :=
  (C1_categorize_ten_labels_first_match "great video?").2.1 (by decide)

/-- C5: the service `detect_sarcasm` answers `sarcastic` exactly when the
five weighted base signals (negative context 2, sarcasm indicator 2,
emoji 1, ALL-CAPS word 1, quotation marks 1) sum to at least 3, or the
compound score of the lowercased comment exceeds 0.4 while a
negative-context or sarcasm-indicator keyword is present. -/
theorem C5_detect_sarcasm_iff (comment : String) (k : ℚ) :
    detectSarcasmSvcStr svcSarcasmConfig comment k = "sarcastic" ↔
      (3 ≤ sarcasmBaseScore (hasNegCtx svcSarcasmConfig comment)
          (hasSarcasmClue svcSarcasmConfig comment)
          (hasEmojiClue svcSarcasmConfig comment) (hasCapsWord comment)
          (hasQuotes comment) ∨
        ((2 : ℚ) / 5 < k ∧
          (hasNegCtx svcSarcasmConfig comment = true ∨
            hasSarcasmClue svcSarcasmConfig comment = true))) := by
  have h := sarcasmScore_ge_three_iff (hasNegCtx svcSarcasmConfig comment)
    (hasSarcasmClue svcSarcasmConfig comment) (hasEmojiClue svcSarcasmConfig comment)
    (hasCapsWord comment) (hasQuotes comment) k
  rw [mkRat_two_fifths] at h
  simp only [detectSarcasmSvcStr]
  split_ifs with hs
  · exact iff_of_true rfl (h.mp hs)
  · exact iff_of_false (by simp) (fun hr => hs (h.mpr hr))

/-- C10 (counterexample): with the same configuration lists and the same
compound score, the two `detect_sarcasm` implementations disagree: on
`"FAKE"` (negative-context keyword plus ALL-CAPS word) at compound 0 the
service version answers `sarcastic` while the `app.py` version answers
`not sarcastic`. -/
theorem C10_sarcasm_counterexample :
    detectSarcasmSvcStr svcSarcasmConfig "FAKE" 0 = "sarcastic" ∧
    detectSarcasmAppStr svcSarcasmConfig "FAKE" 0 = "not sarcastic" := by
  constructor
  · decide
  · decide

/-- C10 (amended): the two implementations are not equivalent, but agree
on two regimes: when the compound score exceeds 0.4 and a
negative-context or sarcasm-indicator keyword is present, both answer
`sarcastic`; when none of the five signals is present, both answer
`not sarcastic`. -/
theorem C10_sarcasm_partial_agreement (cfg : SarcasmConfig) (comment : String) (k : ℚ) :
    ((2 : ℚ) / 5 < k ∧
        (hasNegCtx cfg comment = true ∨ hasSarcasmClue cfg comment = true) →
      detectSarcasmSvcStr cfg comment k = "sarcastic" ∧
      detectSarcasmAppStr cfg comment k = "sarcastic") ∧
    (hasNegCtx cfg comment = false ∧ hasSarcasmClue cfg comment = false ∧
        hasEmojiClue cfg comment = false ∧ hasCapsWord comment = false ∧
        hasQuotes comment = false →
      detectSarcasmSvcStr cfg comment k = "not sarcastic" ∧
      detectSarcasmAppStr cfg comment k = "not sarcastic") := by
  constructor
  · rintro ⟨hk, hor⟩
    have hk' : mkRat 2 5 < k := by rwa [mkRat_two_fifths]
    constructor
    · simp only [detectSarcasmSvcStr]
      rw [if_pos]
      exact (sarcasmScore_ge_three_iff _ _ _ _ _ k).mpr (Or.inr ⟨hk', hor⟩)
    · simp only [detectSarcasmAppStr]
      rw [if_pos]
      refine ⟨hk', ?_⟩
      rcases hor with h | h <;> simp [h]
  · rintro ⟨hn, hcl, hem, hcp, hqt⟩
    constructor
    · simp [detectSarcasmSvcStr, sarcasmScore, sarcasmBaseScore, hn, hcl, hem, hcp, hqt]
    · simp [detectSarcasmAppStr, hn, hcl, hem, hcp]

/-- C10 (witness): the agreement regimes at concrete inputs: both
implementations call `"great job"` sarcastic at compound 1, and both
call `"meh"` (no signals) not sarcastic at compound 0. -/
theorem C10_sarcasm_partial_agreement_witness :
    (detectSarcasmSvcStr svcSarcasmConfig "great job" 1 = "sarcastic" ∧
      detectSarcasmAppStr svcSarcasmConfig "great job" 1 = "sarcastic") ∧
    (detectSarcasmSvcStr svcSarcasmConfig "meh" 0 = "not sarcastic" ∧
      detectSarcasmAppStr svcSarcasmConfig "meh" 0 = "not sarcastic") :=
  ⟨(C10_sarcasm_partial_agreement svcSarcasmConfig "great job" 1).1
      ⟨by norm_num, Or.inl (by decide)⟩,
   (C10_sarcasm_partial_agreement svcSarcasmConfig "meh" 0).2
      ⟨by decide, by decide, by decide, by decide, by decide⟩⟩

/-- C3 (counterexample): on the claimed title the extracted discount-code
list does not contain the string `"SAVE10"`: `detect_sponsorships`
lowercases the whole corpus before running the code regex, so the
captured code is lowercase. -/
theorem C3_sponsorship_counterexample :
    "SAVE10" ∉
      (detectSponsorships "" "Sponsored by Acme — use code SAVE10" "").discount_codes := by
  decide

/-- C3 (amended): for the title `"Sponsored by Acme — use code SAVE10"`
(empty description and transcript), `detect_sponsorships` reports
`has_sponsorship = True`, a discount-code list containing `"save10"`
(the code as it appears in the lowercased corpus), and a confidence
score of at least 45. -/
theorem C3_sponsorship_detection :
    (detectSponsorships "" "Sponsored by Acme — use code SAVE10" "").has_sponsorship
        = true ∧
    "save10" ∈
      (detectSponsorships "" "Sponsored by Acme — use code SAVE10" "").discount_codes ∧
    45 ≤ (detectSponsorships "" "Sponsored by Acme — use code SAVE10" "").confidence_score := by
  refine ⟨by decide, by decide, by decide⟩

/-- C7 (counterexample): an ASCII fraction above 0.7 does not suffice on
its own: on `"bonjour"` (ASCII ratio 1) with the detector reporting
`("fr", 0.9)`, `is_english` returns `False`, because both branches of the
code's disjunction require the detected language to be English. -/
theorem C7_is_english_counterexample :
    isEnglishPy (.ofString "bonjour") (some ("fr", mkRat 9 10)) = false ∧
    (7 : ℚ) / 10 < asciiRatio "bonjour" := by
  constructor
  · decide
  · rw [asciiRatio_bonjour]; norm_num

/-- C7 (amended): `is_english` returns `False` for non-string or blank
input; on other strings it returns `True` iff the detector classifies the
text as English AND (the confidence exceeds 0.5 OR the ASCII-character
fraction exceeds 0.7); when the detector raises, it falls back to the
ASCII fraction exceeding 0.8. -/
theorem C7_is_english_characterization (s lang : String) (conf : ℚ)
    (det : Option (String × ℚ)) :
    isEnglishPy .nonString det = false ∧
    (stripBlank s = true → isEnglishPy (.ofString s) det = false) ∧
    (stripBlank s = false →
      ((isEnglishPy (.ofString s) (some (lang, conf)) = true ↔
         lang = "en" ∧ ((1 : ℚ) / 2 < conf ∨ (7 : ℚ) / 10 < asciiRatio s)) ∧
       (isEnglishPy (.ofString s) none = true ↔ (4 : ℚ) / 5 < asciiRatio s))) := by
  refine ⟨rfl, fun hb => ?_, fun hb => ⟨?_, ?_⟩⟩
  · cases det with
    | none => simp [isEnglishPy, hb]
    | some p => simp [isEnglishPy, hb]
  · simp only [isEnglishPy, hb, Bool.false_eq_true, if_false, Bool.or_eq_true,
      Bool.and_eq_true, decide_eq_true_iff, mkRat_one_half, mkRat_seven_tenths]
    tauto
  · simp [isEnglishPy, hb, mkRat_four_fifths]

/-- C7 (witness): the characterization applied to the non-blank string
`"bonjour"`: detected as English with confidence 1 it is accepted, and
detected as French with high confidence it is rejected despite its ASCII
ratio of 1. -/
theorem C7_is_english_characterization_witness :
    isEnglishPy (.ofString "bonjour") (some ("en", 1)) = true ∧
    isEnglishPy (.ofString "bonjour") (some ("fr", 1)) ≠ true := by
  constructor
  · exact ((C7_is_english_characterization "bonjour" "en" 1
      (some ("en", 1))).2.2 (by decide)).1.mpr ⟨rfl, Or.inl (by norm_num)⟩
  · intro h
    have := ((C7_is_english_characterization "bonjour" "fr" 1
      (some ("fr", 1))).2.2 (by decide)).1.mp h
    simp at this

/-- C9 (counterexample): no input can drive the additive confidence total
above 100 — the five increments sum to exactly 100, so the claimed
pathological inputs exceeding 100 do not exist. -/
theorem C9_confidence_counterexample :
    ¬ ∃ transcript title description : String,
        100 < (detectSponsorships transcript title description).confidence_score := by
  rintro ⟨t, ti, d, h⟩
  have hle : (detectSponsorships t ti d).confidence_score ≤ 100 :=
    sponsorshipConfidence_le_100 (sponsorshipCorpus t ti d)
  omega

/-- C9 (amended): the confidence score is the sum of the five
per-component increments (+30 indicator, +25 known company, +20 extracted
company, +15 discount code, +10 URL, each contributing at most once); the
additive total therefore never exceeds 100, and it reaches exactly 100 on
an input that triggers all five components. -/
theorem C9_confidence_additive_bounded :
    (∀ transcript title description : String,
      (detectSponsorships transcript title description).confidence_score =
        (if hasIndicatorMatch (sponsorshipCorpus transcript title description)
          then 30 else 0) +
        (if !(detectedCompanies
            (sponsorshipCorpus transcript title description)).isEmpty
          then 25 else 0) +
        (if hasCompanyExtract (sponsorshipCorpus transcript title description)
          then 20 else 0) +
        (if !(discountCodesOf
            (sponsorshipCorpus transcript title description)).isEmpty
          then 15 else 0) +
        (if !(urlsOf (sponsorshipCorpus transcript title description)).isEmpty
          then 10 else 0) ∧
      (detectSponsorships transcript title description).confidence_score ≤ 100) ∧
    (detectSponsorships ""
        "Sponsored by Acme, visit nordvpn use code SAVE10 https://a.com"
        "").confidence_score = 100 := by
  refine ⟨fun t ti d => ⟨rfl, sponsorshipConfidence_le_100 _⟩, by decide⟩

end Charizard
